import Mathlib

/-!
  Verification of the real-time device-synchronization core of the
  iot-final building-automation repository: the raw-WebSocket gateway and
  sequencer in `backend/server.js`, the toggle path in
  `backend/controllers/deviceController.js` and the frontend
  `useDevices` hook, the schedule engine in
  `backend/services/scheduleService.js`, and the ESP32 firmware command
  handler in `esp32/websocket_example.cpp`.

  Everything is a shallow embedding: each JS/C++ function becomes a total
  Lean function over explicit state (the fetched device document, the
  per-connection counters, the outbound event list).  Registry reads
  (Mongo `findOne`) are passed in as `Option Device` arguments; a `save`
  is the updated `Device` in the result; `io.emit`/`ws.send` calls become
  entries of an explicit event/reply list.  Environment-dependent
  branches are modelled at their default settings: `REQUIRE_HMAC_IN` is
  unset (the optional HMAC check is skipped) and `ALLOW_INSECURE_IDENTIFY`
  is an explicit boolean argument.
-/

namespace IoT

/-- A switch sub-document of a Device (backend/models, as consumed by
`server.js`, `deviceController.js` and `scheduleService.js`).  `id` stands
for the Mongo `_id` of the sub-document; `relayGpio` is optional, with
`gpio` the legacy primary pin. -/
structure Switch where
  id : Nat
  name : String
  gpio : Nat
  relayGpio : Option Nat
  state : Bool
  lastStateChange : Nat
  dontAutoOff : Bool
  manualSwitchGpio : Option Nat
  manualSwitchEnabled : Bool
  manualMode : String
  manualActiveLow : Bool
deriving DecidableEq, Repr

/-- A queued toggle intent persisted on the Device document
(`device.queuedIntents`). -/
structure QueuedIntent where
  switchGpio : Nat
  desiredState : Bool
deriving DecidableEq, Repr

/-- The motion-sensor sub-document checked by the schedule engine
(`device.pirSensor && device.pirSensor.isActive`). -/
structure PirSensor where
  isActive : Bool
deriving DecidableEq, Repr

/-- The Device document as read and written by the handlers. -/
structure Device where
  id : Nat
  macAddress : String
  name : String
  status : String
  lastSeen : Nat
  deviceSecret : Option String
  switches : List Switch
  queuedIntents : List QueuedIntent
  pirEnabled : Bool
  pirSensorLastTriggered : Option Nat
  pirSensor : Option PirSensor
deriving DecidableEq, Repr

/-- The pin a stored switch answers to in the `state_update` /
`switch_result` handlers: JS `sw.relayGpio ?? sw.gpio` (nullish
coalescing, so a configured `relayGpio` of 0 is kept). -/
def devicePin (sw : Switch) : Nat :=
  sw.relayGpio.getD sw.gpio

/-- The pin used by the queued-intent flush: JS `s.relayGpio || s.gpio`
(plain truthiness, so a configured `relayGpio` of 0 falls back to
`gpio`). -/
def flushPin (sw : Switch) : Nat :=
  match sw.relayGpio with
  | some g => if g = 0 then sw.gpio else g
  | none => sw.gpio

/-- The minimal per-switch configuration included in the `identified`
reply (the map over `device.switches` at `server.js` lines 528-537). -/
structure SwitchConfig where
  gpio : Nat
  relayGpio : Option Nat
  name : String
  manualSwitchGpio : Option Nat
  manualSwitchEnabled : Bool
  manualMode : String
  manualActiveLow : Bool
  state : Bool
deriving DecidableEq, Repr

/-- Messages the server writes back on the device WebSocket
(`ws.send(JSON.stringify(...))`). -/
inductive ServerMsg where
  | errorMsg (reason : String)
  | identified (mac : String) (mode : String) (switches : List SwitchConfig)
  | switchCommand (mac : String) (gpio : Nat) (state : Bool)
  | stateAckMsg (ts : Nat) (changed : Bool)
deriving DecidableEq, Repr

/-- Observer-facing events pushed on the Socket.IO bus (`io.emit`), plus
the append-only activity / security-alert records the services create. -/
inductive Event where
  | deviceStateChanged (device : Device) (source : String) (note : Option String)
  | stateAck (ts : Nat) (changed : Bool)
  | switchResultEvt (gpio : Nat) (requestedState : Bool) (actualState : Option Bool)
      (success : Bool) (reason : Option String) (seq : Option Nat)
  | deviceToggleBlocked (switchGpio : Nat) (reason : String)
      (requestedState : Bool) (actualState : Option Bool) (seq : Option Nat)
  | toggleBlockedOffline (switchId : Nat) (requestedState : Option Bool)
  | deviceConnected (mac : String)
  | identifyError (mac : String) (reason : String)
  | securityAlert (typ : String) (severity : String) (message : String)
  | activityLog (action : String) (triggeredBy : String)
deriving DecidableEq, Repr

/-- The per-connection volatile state the gateway keeps on the `ws`
object: the bound mac, the two last-accepted inbound sequence numbers
(`ws._lastInSeq`, `ws._lastResSeq`, both defaulted to 0 by `|| 0`), and
the rate-limit window `ws._stateRL`. -/
structure Conn where
  mac : Option String := none
  secret : Option String := none
  lastInSeq : Nat := 0
  lastResSeq : Nat := 0
  stateRL : List Nat := []
deriving DecidableEq, Repr

namespace Server

/-- One entry of an incoming `state_update.switches` array; the handler
reads `swIn.gpio ?? swIn.relayGpio`. -/
structure SwIn where
  gpio : Option Nat
  relayGpio : Option Nat
  state : Bool
deriving DecidableEq, Repr

/-- An incoming `state_update` message (`seq` optional on the wire). -/
structure StateUpdateMsg where
  seq : Option Nat
  switches : List SwIn
  pir : Bool
deriving DecidableEq, Repr

/-- An incoming `switch_result` message. -/
structure SwitchResultMsg where
  gpio : Nat
  success : Bool
  requestedState : Bool
  actualState : Option Bool
  reason : Option String
  seq : Option Nat
deriving DecidableEq, Repr

/-- The rate window bookkeeping at the top of the `state_update` handler:
drop entries older than 2s, and if 10 or more remain collapse the window
to just `now` (the message itself is never dropped). -/
def rlUpdate (now : Nat) (w : List Nat) : List Nat :=
  let w2 := w.filter (fun t => now - t < 2000)
  if 10 ≤ w2.length then [now] else w2 ++ [now]

/-- In-place mutation of the first stored switch answering to pin `g`
when its state differs (`const target = device.switches.find(...); if
(target && target.state !== s) { target.state = s; target.lastStateChange
= new Date(); changed = true; }`).  Returns the new list and whether a
mutation happened. -/
def updateFirst (now : Nat) (g : Nat) (b : Bool) : List Switch → List Switch × Bool
  | [] => ([], false)
  | sw :: rest =>
    if devicePin sw = g then
      if sw.state = b then (sw :: rest, false)
      else ({ sw with state := b, lastStateChange := now } :: rest, true)
    else
      let r := updateFirst now g b rest
      (sw :: r.1, r.2)

/-- The effective gpio of an incoming state entry
(`swIn.gpio ?? swIn.relayGpio`). -/
def effGpio (swIn : SwIn) : Option Nat :=
  swIn.gpio <|> swIn.relayGpio

/-- One iteration of the `incoming.forEach(swIn => ...)` merge loop:
resolve the effective gpio, ignore it when absent or not among the
device's valid pins, otherwise update the first matching stored switch. -/
def mergeStep (now : Nat) (valid : List Nat) (acc : List Switch × Bool) (swIn : SwIn) :
    List Switch × Bool :=
  match effGpio swIn with
  | none => acc
  | some g =>
    if g ∈ valid then
      let r := updateFirst now g swIn.state acc.1
      (r.1, acc.2 || r.2)
    else acc

/-- The whole merge loop over the incoming switches array. -/
def mergeFold (now : Nat) (valid : List Nat) (entries : List SwIn) (acc : List Switch × Bool) :
    List Switch × Bool :=
  entries.foldl (mergeStep now valid) acc

/-- Body of the `state_update` handler once the message passed the
staleness gate and the device was found: merge reported pins, refresh the
PIR timestamp and `lastSeen`, save once, emit one `device_state_changed`
and answer with a `state_ack` carrying the `changed` flag. -/
def stateUpdateBody (dev : Device) (p : StateUpdateMsg) (now : Nat) : Device × List Event :=
  let valid := dev.switches.map devicePin
  let merged := mergeFold now valid p.switches (dev.switches, false)
  let dev1 : Device :=
    { dev with
      switches := merged.1
      pirSensorLastTriggered :=
        if p.pir ∧ dev.pirEnabled then some now else dev.pirSensorLastTriggered
      lastSeen := now }
  (dev1, [Event.deviceStateChanged dev1 "esp32:state_update" none, Event.stateAck now merged.2])

/-- The `state_update` branch of the ws message handler
(`server.js` lines 570-635, with `REQUIRE_HMAC_IN` unset): update the
rate window, drop the message when its sequence is strictly below the
last accepted one, otherwise record the sequence and run the body. -/
def handleStateUpdate (conn : Conn) (dev : Option Device) (p : StateUpdateMsg) (now : Nat) :
    Conn × Option Device × List Event :=
  let conn0 := { conn with stateRL := rlUpdate now conn.stateRL }
  match p.seq with
  | some s =>
    if s < conn0.lastInSeq then (conn0, dev, [])
    else
      let conn1 := { conn0 with lastInSeq := s }
      match dev with
      | none => (conn1, none, [])
      | some d =>
        let r := stateUpdateBody d p now
        (conn1, some r.1, r.2)
  | none =>
    match dev with
    | none => (conn0, none, [])
    | some d =>
      let r := stateUpdateBody d p now
      (conn0, some r.1, r.2)

/-- Body of the `switch_result` handler once past the staleness gate with
the device found (`server.js` lines 665-713): a `stale_seq` failure is a
no-op apart from a forwarded `switch_result` event; any other failure
reconciles the stored state to the reported actual state when present and
differing, then emits `device_toggle_blocked` and `switch_result`; a
success reconciles likewise and emits `switch_result`. -/
def switchResultBody (dev : Device) (m : SwitchResultMsg) (now : Nat) : Device × List Event :=
  let target := dev.switches.find? (fun sw => devicePin sw == m.gpio)
  if m.success then
    let rec1 :=
      match m.actualState with
      | some a =>
        let r := updateFirst now m.gpio a dev.switches
        if r.2 then
          let d2 := { dev with switches := r.1 }
          (d2, [Event.deviceStateChanged d2 "esp32:switch_result:success:reconcile" none])
        else (dev, ([] : List Event))
      | none => (dev, ([] : List Event))
    let echoed :=
      match m.actualState with
      | some a => some a
      | none => target.map (fun sw => sw.state)
    (rec1.1, rec1.2 ++ [Event.switchResultEvt m.gpio m.requestedState echoed true none m.seq])
  else
    let reason := m.reason.getD "unknown_gpio"
    if reason = "stale_seq" then
      (dev, [Event.switchResultEvt m.gpio m.requestedState m.actualState false (some reason) m.seq])
    else
      let rec1 :=
        match m.actualState with
        | some a =>
          let r := updateFirst now m.gpio a dev.switches
          if r.2 then
            let d2 := { dev with switches := r.1 }
            (d2, [Event.deviceStateChanged d2 "esp32:switch_result:failure" (some reason)])
          else (dev, ([] : List Event))
        | none => (dev, ([] : List Event))
      (rec1.1,
        rec1.2 ++
          [Event.deviceToggleBlocked m.gpio reason m.requestedState m.actualState m.seq,
           Event.switchResultEvt m.gpio m.requestedState m.actualState false (some reason) m.seq])

/-- The `switch_result` branch of the ws message handler
(`server.js` lines 636-714, `REQUIRE_HMAC_IN` unset): drop the message
when its sequence is strictly below the last accepted result sequence,
otherwise record it and run the body. -/
def handleSwitchResult (conn : Conn) (dev : Option Device) (m : SwitchResultMsg) (now : Nat) :
    Conn × Option Device × List Event :=
  match m.seq with
  | some s =>
    if s < conn.lastResSeq then (conn, dev, [])
    else
      let conn1 := { conn with lastResSeq := s }
      match dev with
      | none => (conn1, none, [])
      | some d =>
        let r := switchResultBody d m now
        (conn1, some r.1, r.2)
  | none =>
    match dev with
    | none => (conn, none, [])
    | some d =>
      let r := switchResultBody d m now
      (conn, some r.1, r.2)

/-- The stored boolean state at pin `g`: the state of the first switch
answering to `g`, when one exists. -/
def findPinState (g : Nat) (l : List Switch) : Option Bool :=
  (l.find? (fun sw => devicePin sw == g)).map (fun sw => sw.state)

/-- The per-switch configuration sent in the `identified` reply. -/
def toSwitchConfig (sw : Switch) : SwitchConfig :=
  { gpio := sw.gpio
    relayGpio := sw.relayGpio
    name := sw.name
    manualSwitchGpio := sw.manualSwitchGpio
    manualSwitchEnabled := sw.manualSwitchEnabled
    manualMode := sw.manualMode
    manualActiveLow := sw.manualActiveLow
    state := sw.state }

/-- The outcome of the `identify` branch (`server.js` lines 460-553):
what was written back on the socket, whether the handler closed the
socket (it never does — rejections only send an error message), the new
connection state, the saved device record if any, whether the connection
was recorded in the live connection map (`wsDevices.set`), and the
emitted bus events. -/
structure IdentifyResult where
  replies : List ServerMsg
  closed : Bool
  conn : Conn
  device : Option Device
  wsRegistered : Bool
  events : List Event
deriving DecidableEq, Repr

/-- The secret check of the `identify` branch: a device with a
configured secret rejects a missing or different supplied secret
(`else if (!secret || device.deviceSecret !== secret)`); a device with
no stored secret skips the check. -/
def secretMismatchB (device : Device) (secret : Option String) : Bool :=
  match device.deviceSecret with
  | none => false
  | some ds =>
    match secret with
    | none => true
    | some s => ds != s

/-- The `identify` branch: `found` is the result of the
`Device.findOne({ macAddress: mac })` lookup, `secret` the supplied
secret and `allowInsecure` the `ALLOW_INSECURE_IDENTIFY === '1'`
override.  An unknown device or a bad secret is answered with an error
message (the socket is left open); otherwise the device is marked
online, recorded in the connection map, and answered with `identified`
carrying the switch configuration. -/
def handleIdentify (conn : Conn) (found : Option Device) (mac : String)
    (secret : Option String) (allowInsecure : Bool) (now : Nat) : IdentifyResult :=
  if mac = "" then
    { replies := [ServerMsg.errorMsg "missing_mac"], closed := false, conn := conn,
      device := none, wsRegistered := false, events := [] }
  else
    match found with
    | none =>
      { replies := [ServerMsg.errorMsg "device_not_registered"], closed := false, conn := conn,
        device := none, wsRegistered := false,
        events := [Event.identifyError mac "device_not_registered"] }
    | some device =>
      if secretMismatchB device secret && ! allowInsecure then
        { replies := [ServerMsg.errorMsg "invalid_or_missing_secret"], closed := false,
          conn := conn, device := none, wsRegistered := false,
          events := [Event.identifyError mac "invalid_or_missing_secret"] }
      else
        let device1 := { device with status := "online", lastSeen := now }
        { replies :=
            [ServerMsg.identified mac
              (if device.deviceSecret.isSome then "secure" else "insecure")
              (device.switches.map toSwitchConfig)],
          closed := false,
          conn := { conn with mac := some mac, secret := device.deviceSecret },
          device := some device1,
          wsRegistered := true,
          events := [Event.deviceConnected mac] }

/-- The delayed queued-intent flush scheduled on identify
(`server.js` lines 500-526): re-fetch the device; for each queued intent
send a `switch_command` only when the freshly stored state at the pin
still disagrees with the desired state (or skip when the pin matches no
switch); then clear the whole queue regardless and save. -/
def flushQueuedIntents (mac : String) (fresh : Option Device) :
    Option Device × List ServerMsg :=
  match fresh with
  | none => (none, [])
  | some f =>
    let toSend := f.queuedIntents.filter (fun intent =>
      match f.switches.find? (fun s => flushPin s == intent.switchGpio) with
      | none => false
      | some sw => sw.state ≠ intent.desiredState)
    (some { f with queuedIntents := [] },
      toSend.map (fun i => ServerMsg.switchCommand mac i.switchGpio i.desiredState))

end Server

namespace DeviceController

/-- The HTTP-level outcome of the `toggleSwitch` controller
(`deviceController.js` lines 255-336): the response status, the saved
device record if one was written, the emitted events, and the
`switch_command` pushed to the device socket when it was open (`gpio`
taken from `sw.relayGpio` directly). -/
structure ToggleResult where
  status : Nat
  device : Option Device
  events : List Event
  command : Option (Option Nat × Bool)
deriving DecidableEq, Repr

/-- Update the state of the first switch with the given sub-document id. -/
def setStateFirstById (switchId : Nat) (b : Bool) : List Switch → List Switch
  | [] => []
  | sw :: rest =>
    if sw.id = switchId then { sw with state := b } :: rest
    else sw :: setStateFirstById switchId b rest

/-- The `toggleSwitch` controller: a missing device or switch is a 404;
a device whose status is set and not `online` is answered 409 with a
`device_toggle_blocked{reason:offline}` event and nothing is persisted
(in particular no queued intent is appended); otherwise the switch state
is flipped (or set to the requested state), saved, logged, broadcast,
and a `switch_command` is pushed when the socket is open. -/
def toggleSwitch (dev : Option Device) (switchId : Nat) (state : Option Bool)
    (wsOpen : Bool) : ToggleResult :=
  match dev with
  | none => { status := 404, device := none, events := [], command := none }
  | some device =>
    if device.status ≠ "" ∧ device.status ≠ "online" then
      { status := 409, device := none,
        events := [Event.toggleBlockedOffline switchId state], command := none }
    else
      match device.switches.find? (fun sw => sw.id == switchId) with
      | none => { status := 404, device := none, events := [], command := none }
      | some sw =>
        let newState := state.getD (! sw.state)
        let device1 := { device with switches := setStateFirstById switchId newState device.switches }
        { status := 200,
          device := some device1,
          events :=
            [Event.activityLog (if newState then "on" else "off") "user",
             Event.deviceStateChanged device1 "http:toggle" none],
          command := if wsOpen then some (sw.relayGpio, newState) else none }

end DeviceController

namespace UseDevices

/-- An in-memory queued toggle intent of the frontend hook
(`useDevicesInternal` in the React app): `desiredState` is left
undefined by `toggleSwitch`. -/
structure FIntent where
  deviceId : String
  switchId : String
  desiredState : Option Bool
  timestamp : Nat
deriving DecidableEq, Repr

/-- The slice of a cached frontend device the toggle guard reads. -/
structure FDevice where
  id : String
  status : String
deriving DecidableEq, Repr

/-- The hook state the toggle path touches: the device cache, the
in-memory offline toggle queue, the in-flight key set and the cooldown
timestamp map. -/
structure FrontState where
  devices : List FDevice
  toggleQueue : List FIntent
  inFlight : List String
  timestamps : List (String × Nat)
deriving DecidableEq, Repr

/-- What the hook's `toggleSwitch` did: dropped as an in-flight
duplicate, dropped by the 400ms cooldown, threw the controlled
`Device is offline. Toggle queued.` error after queueing in memory, or
proceeded to the API request. -/
inductive FrontOutcome where
  | droppedInFlight
  | droppedCooldown
  | threwOfflineQueued
  | requested
deriving DecidableEq, Repr

/-- Look up the cooldown timestamp recorded for a key. -/
def lookupTs (ts : List (String × Nat)) (key : String) : Option Nat :=
  (ts.find? (fun p => p.1 == key)).map (fun p => p.2)

/-- The frontend `toggleSwitch` (the hook in the React app, lines
185-229 of the `useDevicesInternal` source): duplicate and rapid-repeat
guards first; then, when the cached device is not `online`, replace any
queued intent for the same device+switch by a fresh one (latest wins)
and throw the controlled offline error; otherwise proceed to the API
call. -/
def toggleSwitch (st : FrontState) (deviceId switchId : String) (now : Nat) :
    FrontOutcome × FrontState :=
  let key := deviceId ++ ":" ++ switchId
  if key ∈ st.inFlight then (FrontOutcome.droppedInFlight, st)
  else if (match lookupTs st.timestamps key with
           | some t => decide (now - t < 400)
           | none => false) then (FrontOutcome.droppedCooldown, st)
  else
    let st1 : FrontState :=
      { st with
        timestamps := (key, now) :: st.timestamps.filter (fun p => p.1 ≠ key)
        inFlight := key :: st.inFlight }
    match st.devices.find? (fun d => d.id == deviceId) with
    | some d =>
      if d.status ≠ "online" then
        (FrontOutcome.threwOfflineQueued,
          { st1 with
            toggleQueue :=
              (st1.toggleQueue.filter
                (fun t => ¬ (t.deviceId = deviceId ∧ t.switchId = switchId))) ++
              [{ deviceId := deviceId, switchId := switchId, desiredState := none,
                 timestamp := now }] })
      else (FrontOutcome.requested, st1)
    | none => (FrontOutcome.requested, st1)

end UseDevices

namespace ScheduleService

/-- The schedule fields `toggleScheduledSwitch` and `autoOffSwitch`
read. -/
structure Schedule where
  id : Nat
  name : String
  action : String
  respectMotion : Bool
  timeoutMinutes : Nat
deriving DecidableEq, Repr

/-- `toggleScheduledSwitch` (`scheduleService.js` lines 105-200).
`dev` is the `Device.findById` result and `recentMotion` whether the
`ActivityLog.findOne` query found a PIR entry within the 5-minute
window.  Returns the saved device (none when nothing was written), the
created alert/activity events, and whether the auto-off timer was
armed.  The motion-skip branch requires the device PIR sensor active,
recent motion AND the switch not flagged `dontAutoOff`; a flagged
switch falls through and is switched according to the action. -/
def toggleScheduledSwitch (dev : Option Device) (switchId : Nat) (sched : Schedule)
    (recentMotion : Bool) : Option Device × List Event × Bool :=
  match dev with
  | none => (none, [], false)
  | some device =>
    match device.switches.find? (fun sw => sw.id == switchId) with
    | none => (none, [], false)
    | some sw =>
      let pirActive := match device.pirSensor with
        | some p => p.isActive
        | none => false
      if sched.respectMotion && sched.action == "off" && pirActive &&
         recentMotion && ! sw.dontAutoOff then
        (none,
          [Event.securityAlert "motion_override" "medium"
            ("Schedule tried to turn off " ++ sw.name ++
             " but motion detected. Manual override required.")],
          false)
      else
        let device1 :=
          { device with
            switches := DeviceController.setStateFirstById switchId (sched.action = "on")
              device.switches }
        (some device1,
          [Event.activityLog sched.action "schedule"],
          sched.action = "on" ∧ 0 < sched.timeoutMinutes)

/-- `autoOffSwitch` (`scheduleService.js` lines 202-270), the body of
the one-shot auto-off timer: nothing happens when the switch is missing
or already off; a `dontAutoOff` switch is left untouched and a
high-severity timeout SecurityAlert is created instead; otherwise the
switch is turned off, saved and an activity entry is logged. -/
def autoOffSwitch (dev : Option Device) (switchId : Nat) (timeoutMinutes : Nat) :
    Option Device × List Event :=
  match dev with
  | none => (none, [])
  | some device =>
    match device.switches.find? (fun sw => sw.id == switchId) with
    | none => (none, [])
    | some sw =>
      if ¬ sw.state then (none, [])
      else if sw.dontAutoOff then
        (none,
          [Event.securityAlert "timeout" "high"
            (sw.name ++ " has been running for " ++ toString timeoutMinutes ++
             " minutes and needs manual attention.")])
      else
        (some { device with
            switches := DeviceController.setStateFirstById switchId false device.switches },
          [Event.activityLog "off" "system"])

end ScheduleService

namespace Firmware

/-- A firmware-side switch entry (`SwitchState` in
`esp32/websocket_example.cpp`, restricted to the fields the
`switch_command` path reads). -/
structure FwSwitch where
  gpio : Int
  state : Bool
deriving DecidableEq, Repr

/-- Firmware state: the dynamic switch list and the per-gpio
last-applied command sequence table (`lastSeqs`). -/
structure FwState where
  switchesLocal : List FwSwitch
  lastSeqs : List (Int × Int)
deriving DecidableEq, Repr

/-- `getLastSeq`: the last applied sequence for a gpio, `-1` when the
gpio has no entry. -/
def getLastSeq (l : List (Int × Int)) (g : Int) : Int :=
  match l.find? (fun p => p.1 == g) with
  | some p => p.2
  | none => -1

/-- `setLastSeq`: overwrite the first entry for the gpio or append a
fresh one. -/
def setLastSeq (l : List (Int × Int)) (g : Int) (s : Int) : List (Int × Int) :=
  match l with
  | [] => [(g, s)]
  | p :: rest => if p.1 = g then (g, s) :: rest else p :: setLastSeq rest g s

/-- Observable firmware outputs: a relay GPIO write (`digitalWrite`,
`levelOn` meaning logical ON i.e. electrical LOW on the active-low
board), an outbound `state_update`, and an outbound `switch_result`. -/
inductive FwOut where
  | hwWrite (gpio : Int) (levelOn : Bool)
  | stateUpdate (switches : List (Int × Bool))
  | switchResult (gpio : Int) (requested : Bool) (success : Bool)
      (reason : Option String) (seq : Option Int) (actualState : Option Bool)
deriving DecidableEq, Repr

/-- Set the state of the first firmware switch with the given gpio. -/
def applyFirstFw (g : Int) (b : Bool) : List FwSwitch → List FwSwitch × Bool
  | [] => ([], false)
  | sw :: rest =>
    if sw.gpio = g then ({ sw with state := b } :: rest, true)
    else
      let r := applyFirstFw g b rest
      (sw :: r.1, r.2)

/-- `applySwitchState`: find the switch, store the state, write the
relay pin and push an immediate forced `state_update`; unknown gpios are
ignored and reported as failure. -/
def applySwitchState (st : FwState) (g : Int) (b : Bool) : FwState × List FwOut × Bool :=
  let r := applyFirstFw g b st.switchesLocal
  if r.2 then
    let st1 := { st with switchesLocal := r.1 }
    (st1,
      [FwOut.hwWrite g b,
       FwOut.stateUpdate (st1.switchesLocal.map (fun sw => (sw.gpio, sw.state)))],
      true)
  else (st, [], false)

/-- The post-staleness body of the `switch_command` branch: apply when
the gpio is non-negative, then send an explicit `switch_result` echoing
the actual stored state (the compiled-in device secret is non-empty, so
`actualState` is always attached), with reason `unknown_gpio` on
failure. -/
def commandBody (st : FwState) (gpio : Int) (requested : Bool) (seq : Option Int) :
    FwState × List FwOut :=
  let r := if 0 ≤ gpio then applySwitchState st gpio requested else (st, [], false)
  let success := r.2.2
  let actual :=
    match r.1.switchesLocal.find? (fun sw => sw.gpio == gpio) with
    | some sw => sw.state
    | none => false
  (r.1,
    r.2.1 ++
      [FwOut.switchResult gpio requested success
        (if success then none else some "unknown_gpio") seq (some actual)])

/-- The `switch_command` branch of `onWsEvent`
(`websocket_example.cpp` lines 310-366): a command whose sequence is
present (`seq >= 0`) and strictly below the last applied sequence for
its gpio is rejected with a `stale_seq` result before any state or
hardware write; otherwise the sequence table is updated and the command
body runs. -/
def onSwitchCommand (st : FwState) (gpio : Int) (requested : Bool) (seq : Int) :
    FwState × List FwOut :=
  if 0 ≤ seq then
    let last := getLastSeq st.lastSeqs gpio
    if 0 ≤ last ∧ seq < last then
      (st, [FwOut.switchResult gpio requested false (some "stale_seq") (some seq) none])
    else
      commandBody { st with lastSeqs := setLastSeq st.lastSeqs gpio seq } gpio requested (some seq)
  else commandBody st gpio requested none

end Firmware

end IoT

namespace IoT
namespace Server

/-- An accepted `state_update` (sequence present and not below the last
accepted one) records its sequence as the new channel counter. -/
theorem handleStateUpdate_sets_seq (conn : Conn) (dev : Option Device)
    (p : StateUpdateMsg) (now a : Nat) (hseq : p.seq = some a)
    (hacc : conn.lastInSeq ≤ a) :
    (handleStateUpdate conn dev p now).1.lastInSeq = a := by
  unfold handleStateUpdate
  rw [hseq]
  simp only
  rw [if_neg (by simpa using Nat.not_lt.mpr hacc)]
  cases dev <;> rfl

/-- An accepted `switch_result` records its sequence as the new result
channel counter. -/
theorem handleSwitchResult_sets_seq (conn : Conn) (dev : Option Device)
    (m : SwitchResultMsg) (now a : Nat) (hseq : m.seq = some a)
    (hacc : conn.lastResSeq ≤ a) :
    (handleSwitchResult conn dev m now).1.lastResSeq = a := by
  unfold handleSwitchResult
  rw [hseq]
  simp only
  rw [if_neg (by simpa using Nat.not_lt.mpr hacc)]
  cases dev <;> rfl

/-- C1: on each inbound channel independently, once a message with
sequence `a` has been accepted, a later message bearing `b < a` is
dropped without any state mutation: the device document is returned
unchanged (so no switch state, timestamp or persisted field moves), no
event is emitted, and the channel counter stays at `a`. -/
theorem stale_messages_dropped_without_effect
    (conn : Conn) (dev : Option Device) (now1 now2 a b : Nat)
    (p q : StateUpdateMsg) (m m2 : SwitchResultMsg)
    (hp : p.seq = some a) (hpa : conn.lastInSeq ≤ a)
    (hq : q.seq = some b) (hba : b < a)
    (hm : m.seq = some a) (hma : conn.lastResSeq ≤ a)
    (hm2 : m2.seq = some b) :
    (let r1 := handleStateUpdate conn dev p now1
     let r2 := handleStateUpdate r1.1 r1.2.1 q now2
     r2.2.1 = r1.2.1 ∧ r2.2.2 = [] ∧ r2.1.lastInSeq = a) ∧
    (let s1 := handleSwitchResult conn dev m now1
     let s2 := handleSwitchResult s1.1 s1.2.1 m2 now2
     s2.2.1 = s1.2.1 ∧ s2.2.2 = [] ∧ s2.1.lastResSeq = a) := by
  constructor
  · have h1 : (handleStateUpdate conn dev p now1).1.lastInSeq = a :=
      handleStateUpdate_sets_seq conn dev p now1 a hp hpa
    simp only
    rcases hr : handleStateUpdate conn dev p now1 with ⟨c1, d1, e1⟩
    rw [hr] at h1
    unfold handleStateUpdate
    rw [hq]
    simp only
    rw [if_pos (show b < c1.lastInSeq from h1.symm ▸ hba)]
    exact ⟨rfl, rfl, h1⟩
  · have h1 : (handleSwitchResult conn dev m now1).1.lastResSeq = a :=
      handleSwitchResult_sets_seq conn dev m now1 a hm hma
    simp only
    rcases hr : handleSwitchResult conn dev m now1 with ⟨c1, d1, e1⟩
    rw [hr] at h1
    unfold handleSwitchResult
    rw [hm2]
    simp only
    rw [if_pos (show b < c1.lastResSeq from h1.symm ▸ hba)]
    exact ⟨rfl, rfl, h1⟩

/-- Witness for C1 at a concrete device: sequence 7 accepted on both
channels, then sequence 3 dropped. -/
theorem stale_messages_dropped_without_effect_witness :
    ((⟨some "AA", none, 0, 0, []⟩ : Conn).lastInSeq ≤ 7) ∧
    (let conn : Conn := ⟨some "AA", none, 0, 0, []⟩
     let dev : Option Device :=
       some ⟨1, "AA", "lab", "online", 0, none,
         [⟨1, "fan", 26, none, false, 0, false, none, false, "maintained", true⟩], [],
         false, none, none⟩
     let p : StateUpdateMsg := ⟨some 7, [⟨some 26, none, true⟩], false⟩
     let q : StateUpdateMsg := ⟨some 3, [⟨some 26, none, false⟩], false⟩
     let m : SwitchResultMsg := ⟨26, true, true, some true, none, some 7⟩
     let m2 : SwitchResultMsg := ⟨26, true, false, some false, none, some 3⟩
     (let r1 := handleStateUpdate conn dev p 100
      let r2 := handleStateUpdate r1.1 r1.2.1 q 200
      r2.2.1 = r1.2.1 ∧ r2.2.2 = [] ∧ r2.1.lastInSeq = 7) ∧
     (let s1 := handleSwitchResult conn dev m 100
      let s2 := handleSwitchResult s1.1 s1.2.1 m2 200
      s2.2.1 = s1.2.1 ∧ s2.2.2 = [] ∧ s2.1.lastResSeq = 7)) := by
  refine ⟨by decide, ?_⟩
  exact stale_messages_dropped_without_effect
    ⟨some "AA", none, 0, 0, []⟩
    (some ⟨1, "AA", "lab", "online", 0, none,
      [⟨1, "fan", 26, none, false, 0, false, none, false, "maintained", true⟩], [],
      false, none, none⟩)
    100 200 7 3
    ⟨some 7, [⟨some 26, none, true⟩], false⟩
    ⟨some 3, [⟨some 26, none, false⟩], false⟩
    ⟨26, true, true, some true, none, some 7⟩
    ⟨26, true, false, some false, none, some 3⟩
    rfl (by decide) rfl (by decide) rfl (by decide) rfl

end Server
end IoT

namespace IoT
namespace Server

/-- The stored state at a pin on a cons cell whose head answers to the
pin. -/
theorem findPinState_cons_pos (g : Nat) (sw : Switch) (rest : List Switch)
    (h : devicePin sw = g) : findPinState g (sw :: rest) = some sw.state := by
  unfold findPinState
  rw [List.find?_cons_of_pos _ (by simpa using h)]
  rfl

/-- The stored state at a pin on a cons cell whose head does not answer
to the pin. -/
theorem findPinState_cons_neg (g : Nat) (sw : Switch) (rest : List Switch)
    (h : ¬ devicePin sw = g) : findPinState g (sw :: rest) = findPinState g rest := by
  unfold findPinState
  rw [List.find?_cons_of_neg _ (by simpa using h)]

/-- `updateFirst` permutes no pins: the pin list is unchanged. -/
theorem updateFirst_pins (now g : Nat) (b : Bool) (l : List Switch) :
    ((updateFirst now g b l).1).map devicePin = l.map devicePin := by
  induction l with
  | nil => rfl
  | cons sw rest ih =>
    unfold updateFirst
    by_cases h : devicePin sw = g
    · by_cases hs : sw.state = b
      · rw [if_pos h, if_pos hs]
      · rw [if_pos h, if_neg hs]
        rfl
    · rw [if_neg h]
      simp only [List.map_cons]
      rw [ih]

/-- A pin present among the device pins has a stored state. -/
theorem findPinState_isSome_of_mem (g : Nat) (l : List Switch)
    (h : g ∈ l.map devicePin) : (findPinState g l).isSome := by
  induction l with
  | nil => simp at h
  | cons sw rest ih =>
    by_cases hg : devicePin sw = g
    · rw [findPinState_cons_pos g sw rest hg]
      rfl
    · rw [findPinState_cons_neg g sw rest hg]
      rw [List.map_cons] at h
      rcases List.mem_cons.mp h with h1 | h2
      · exact absurd h1.symm hg
      · exact ih h2

/-- After `updateFirst now g b`, the stored state at pin `g` is `b`
(provided the pin has a stored state at all). -/
theorem findPinState_updateFirst_self (now g : Nat) (b : Bool) (l : List Switch)
    (h : (findPinState g l).isSome) :
    findPinState g (updateFirst now g b l).1 = some b := by
  induction l with
  | nil => simp [findPinState, List.find?] at h
  | cons sw rest ih =>
    unfold updateFirst
    by_cases hg : devicePin sw = g
    · by_cases hs : sw.state = b
      · rw [if_pos hg, if_pos hs]
        rw [findPinState_cons_pos g sw rest hg, hs]
      · rw [if_pos hg, if_neg hs]
        exact findPinState_cons_pos g _ rest hg
    · rw [if_neg hg]
      rw [findPinState_cons_neg g sw rest hg] at h
      rw [findPinState_cons_neg g sw _ hg]
      exact ih h

/-- `updateFirst` at one pin does not touch the stored state at any
other pin. -/
theorem findPinState_updateFirst_other (now g g2 : Nat) (b : Bool) (l : List Switch)
    (hne : g ≠ g2) :
    findPinState g (updateFirst now g2 b l).1 = findPinState g l := by
  induction l with
  | nil => rfl
  | cons sw rest ih =>
    unfold updateFirst
    by_cases h2 : devicePin sw = g2
    · have hg : ¬ devicePin sw = g := fun hh => hne (hh.symm.trans h2)
      by_cases hs : sw.state = b
      · rw [if_pos h2, if_pos hs]
      · rw [if_pos h2, if_neg hs]
        rw [findPinState_cons_neg g sw rest hg]
        exact findPinState_cons_neg g _ rest hg
    · rw [if_neg h2]
      by_cases hg : devicePin sw = g
      · rw [findPinState_cons_pos g sw _ hg, findPinState_cons_pos g sw rest hg]
      · rw [findPinState_cons_neg g sw _ hg, findPinState_cons_neg g sw rest hg]
        exact ih

/-- When the stored state at pin `g` is already `b`, `updateFirst` is
the identity and reports no change. -/
theorem updateFirst_stable (now g : Nat) (b : Bool) (l : List Switch)
    (h : findPinState g l = some b) :
    updateFirst now g b l = (l, false) := by
  induction l with
  | nil => simp [findPinState, List.find?] at h
  | cons sw rest ih =>
    unfold updateFirst
    by_cases hg : devicePin sw = g
    · have hs : sw.state = b := by
        rw [findPinState_cons_pos g sw rest hg] at h
        exact Option.some.inj h
      rw [if_pos hg, if_pos hs]
    · rw [if_neg hg]
      rw [findPinState_cons_neg g sw rest hg] at h
      rw [ih h]

/-- When `updateFirst` reports no change although the pin has a stored
state, that state already equals the written one. -/
theorem findPinState_of_updateFirst_unchanged (now g : Nat) (b : Bool) (l : List Switch)
    (hsome : (findPinState g l).isSome)
    (h : (updateFirst now g b l).2 = false) :
    findPinState g l = some b := by
  induction l with
  | nil => simp [findPinState, List.find?] at hsome
  | cons sw rest ih =>
    unfold updateFirst at h
    by_cases hg : devicePin sw = g
    · by_cases hs : sw.state = b
      · rw [findPinState_cons_pos g sw rest hg, hs]
      · rw [if_pos hg, if_neg hs] at h
        simp at h
    · rw [if_neg hg] at h
      rw [findPinState_cons_neg g sw rest hg] at hsome ⊢
      exact ih hsome (by simpa using h)

end Server
end IoT

namespace IoT
namespace Server

/-- Every processed `switch_result` forwards a `switch_result` event to
observers, whatever the branch. -/
theorem switchResultBody_emits (d : Device) (m : SwitchResultMsg) (now : Nat) :
    ∃ a suc r,
      Event.switchResultEvt m.gpio m.requestedState a suc r m.seq ∈
        (switchResultBody d m now).2 := by
  by_cases hsuc : m.success
  · cases ha : m.actualState with
    | none =>
      refine ⟨(d.switches.find? (fun sw => devicePin sw == m.gpio)).map
        (fun sw => sw.state), true, none, ?_⟩
      simp [switchResultBody, hsuc, ha]
    | some a =>
      refine ⟨some a, true, none, ?_⟩
      simp [switchResultBody, hsuc, ha]
  · cases hr : m.reason with
    | none =>
      refine ⟨m.actualState, false, some "unknown_gpio", ?_⟩
      cases ha : m.actualState <;>
        simp [switchResultBody, hsuc, hr, ha]
    | some rsn =>
      by_cases hst : rsn = "stale_seq"
      · refine ⟨m.actualState, false, some rsn, ?_⟩
        simp [switchResultBody, hsuc, hr, hst]
      · refine ⟨m.actualState, false, some rsn, ?_⟩
        cases ha : m.actualState <;>
          simp [switchResultBody, hsuc, hr, hst, ha]

/-- C10: the staleness gate is strictly less-than on both inbound
channels, so a message whose sequence exactly equals the last accepted
one is not dropped.  A `state_update` at the equal sequence runs the
normal merge: it refreshes `lastSeen`, saves the device, and emits one
`device_state_changed` plus a `state_ack` even when no switch state
differs; a `switch_result` at the equal sequence is processed and
forwards a `switch_result` event. -/
theorem equal_seq_processed_not_stale
    (conn : Conn) (d : Device) (p : StateUpdateMsg) (m : SwitchResultMsg)
    (now s t : Nat) (hp : p.seq = some s) (hs : s = conn.lastInSeq)
    (hm : m.seq = some t) (ht : t = conn.lastResSeq) :
    (∃ d1 c,
      handleStateUpdate conn (some d) p now =
        ({ conn with stateRL := rlUpdate now conn.stateRL, lastInSeq := s }, some d1,
          [Event.deviceStateChanged d1 "esp32:state_update" none, Event.stateAck now c]) ∧
      d1.lastSeen = now) ∧
    (∃ dv evts,
      handleSwitchResult conn (some d) m now =
        ({ conn with lastResSeq := t }, some dv, evts) ∧
      ∃ a suc r, Event.switchResultEvt m.gpio m.requestedState a suc r m.seq ∈ evts) := by
  constructor
  · refine ⟨(stateUpdateBody d p now).1,
      (mergeFold now (d.switches.map devicePin) p.switches (d.switches, false)).2, ?_, ?_⟩
    · unfold handleStateUpdate
      rw [hp]
      simp only
      rw [if_neg (show ¬ s < conn.lastInSeq by rw [hs]; exact Nat.lt_irrefl _)]
      rfl
    · rfl
  · refine ⟨(switchResultBody d m now).1, (switchResultBody d m now).2, ?_, ?_⟩
    · unfold handleSwitchResult
      rw [hm]
      simp only
      rw [if_neg (show ¬ t < conn.lastResSeq by rw [ht]; exact Nat.lt_irrefl _)]
    · exact switchResultBody_emits d m now

/-- Witness for C10: both channels at the exact last accepted sequence
(5), with a payload already matching the stored state. -/
theorem equal_seq_processed_not_stale_witness :
    ((some 5 : Option Nat) = some 5) ∧
    (let conn : Conn := ⟨some "AA", none, 5, 5, []⟩
     let d : Device :=
       ⟨1, "AA", "lab", "online", 0, none,
         [⟨1, "fan", 26, none, true, 0, false, none, false, "maintained", true⟩], [],
         false, none, none⟩
     let p : StateUpdateMsg := ⟨some 5, [⟨some 26, none, true⟩], false⟩
     let m : SwitchResultMsg := ⟨26, true, true, some true, none, some 5⟩
     (∃ d1 c,
       handleStateUpdate conn (some d) p 300 =
         ({ conn with stateRL := rlUpdate 300 conn.stateRL, lastInSeq := 5 }, some d1,
           [Event.deviceStateChanged d1 "esp32:state_update" none, Event.stateAck 300 c]) ∧
       d1.lastSeen = 300) ∧
     (∃ dv evts,
       handleSwitchResult conn (some d) m 300 =
         ({ conn with lastResSeq := 5 }, some dv, evts) ∧
       ∃ a suc r, Event.switchResultEvt m.gpio m.requestedState a suc r m.seq ∈ evts)) := by
  refine ⟨rfl, ?_⟩
  exact equal_seq_processed_not_stale
    ⟨some "AA", none, 5, 5, []⟩
    ⟨1, "AA", "lab", "online", 0, none,
      [⟨1, "fan", 26, none, true, 0, false, none, false, "maintained", true⟩], [],
      false, none, none⟩
    ⟨some 5, [⟨some 26, none, true⟩], false⟩
    ⟨26, true, true, some true, none, some 5⟩
    300 5 5 rfl rfl rfl rfl

end Server
end IoT

namespace IoT
namespace Server

/-- C2: disposition of an accepted `switch_result` from an identified
device.  A `stale_seq` failure leaves the stored device untouched and
raises no alert or blocked notification, yet still forwards exactly one
`switch_result` event; any other failure reconciles the stored state at
the pin to the reported actual state when present, emits a
`device_toggle_blocked` carrying the reason, and returns normally (the
handler is a total function, so no exception reaches the caller); a
success reconciles the stored state to the reported actual state
whenever present. -/
theorem switch_result_disposition
    (conn : Conn) (d : Device) (m : SwitchResultMsg) (now s : Nat)
    (hseq : m.seq = some s) (hacc : conn.lastResSeq ≤ s) :
    (let r := handleSwitchResult conn (some d) m now
     (m.success = false → m.reason = some "stale_seq" →
       r.2.1 = some d ∧
       r.2.2 = [Event.switchResultEvt m.gpio m.requestedState m.actualState false
         (some "stale_seq") m.seq]) ∧
     (∀ rsn, m.success = false → m.reason = some rsn → rsn ≠ "stale_seq" →
       ∃ d1, r.2.1 = some d1 ∧
         Event.deviceToggleBlocked m.gpio rsn m.requestedState m.actualState m.seq ∈ r.2.2 ∧
         (∀ a, m.actualState = some a → (findPinState m.gpio d.switches).isSome →
           findPinState m.gpio d1.switches = some a)) ∧
     (m.success = true →
       ∃ d1, r.2.1 = some d1 ∧
         (∀ a, m.actualState = some a → (findPinState m.gpio d.switches).isSome →
           findPinState m.gpio d1.switches = some a))) := by
  have hbody : handleSwitchResult conn (some d) m now =
      ({ conn with lastResSeq := s }, some (switchResultBody d m now).1,
        (switchResultBody d m now).2) := by
    unfold handleSwitchResult
    rw [hseq]
    simp only
    rw [if_neg (Nat.not_lt.mpr hacc)]
  simp only [hbody]
  refine ⟨?_, ?_, ?_⟩
  · intro hsuc hr
    have hb : switchResultBody d m now =
        (d, [Event.switchResultEvt m.gpio m.requestedState m.actualState false
          (some "stale_seq") m.seq]) := by
      simp [switchResultBody, hsuc, hr]
    rw [hb]
    exact ⟨rfl, rfl⟩
  · intro rsn hsuc hr hne
    cases ha : m.actualState with
    | none =>
      have hb : switchResultBody d m now =
          (d, [Event.deviceToggleBlocked m.gpio rsn m.requestedState none m.seq,
               Event.switchResultEvt m.gpio m.requestedState none false
                 (some rsn) m.seq]) := by
        simp [switchResultBody, hsuc, hr, ha, hne]
      rw [hb]
      exact ⟨d, rfl, by simp, fun a haa => nomatch haa⟩
    | some a =>
      by_cases hu : (updateFirst now m.gpio a d.switches).2 = true
      · have hb : switchResultBody d m now =
            ({ d with switches := (updateFirst now m.gpio a d.switches).1 },
             [Event.deviceStateChanged
                { d with switches := (updateFirst now m.gpio a d.switches).1 }
                "esp32:switch_result:failure" (some rsn),
              Event.deviceToggleBlocked m.gpio rsn m.requestedState (some a) m.seq,
              Event.switchResultEvt m.gpio m.requestedState (some a) false
                (some rsn) m.seq]) := by
          simp [switchResultBody, hsuc, hr, ha, hne, hu]
        rw [hb]
        refine ⟨_, rfl, by simp, ?_⟩
        intro a2 haa hsome
        have ha2 : a2 = a := (Option.some.inj haa).symm
        subst ha2
        exact findPinState_updateFirst_self now m.gpio a2 d.switches hsome
      · have hb : switchResultBody d m now =
            (d, [Event.deviceToggleBlocked m.gpio rsn m.requestedState (some a) m.seq,
                 Event.switchResultEvt m.gpio m.requestedState (some a) false
                   (some rsn) m.seq]) := by
          simp [switchResultBody, hsuc, hr, ha, hne, hu]
        rw [hb]
        refine ⟨d, rfl, by simp, ?_⟩
        intro a2 haa hsome
        have ha2 : a2 = a := (Option.some.inj haa).symm
        subst ha2
        exact findPinState_of_updateFirst_unchanged now m.gpio a2 d.switches hsome
          (eq_false_of_ne_true hu)
  · intro hsuc
    cases ha : m.actualState with
    | none =>
      exact ⟨(switchResultBody d m now).1, rfl, fun a haa => nomatch haa⟩
    | some a =>
      by_cases hu : (updateFirst now m.gpio a d.switches).2 = true
      · have hb : (switchResultBody d m now).1 =
            { d with switches := (updateFirst now m.gpio a d.switches).1 } := by
          simp [switchResultBody, hsuc, ha, hu]
        rw [hb]
        refine ⟨_, rfl, ?_⟩
        intro a2 haa hsome
        have ha2 : a2 = a := (Option.some.inj haa).symm
        subst ha2
        exact findPinState_updateFirst_self now m.gpio a2 d.switches hsome
      · have hb : (switchResultBody d m now).1 = d := by
          simp [switchResultBody, hsuc, ha, hu]
        rw [hb]
        refine ⟨d, rfl, ?_⟩
        intro a2 haa hsome
        have ha2 : a2 = a := (Option.some.inj haa).symm
        subst ha2
        exact findPinState_of_updateFirst_unchanged now m.gpio a2 d.switches hsome
          (eq_false_of_ne_true hu)

/-- Witness for C2: a blocked-toggle failure (`reason = manual_override`)
at a device whose stored state for pin 26 is on while the hardware
reports off; the accepted message reconciles the stored state. -/
theorem switch_result_disposition_witness :
    ((⟨some "AA", none, 0, 2, []⟩ : Conn).lastResSeq ≤ 9) ∧
    (let conn : Conn := ⟨some "AA", none, 0, 2, []⟩
     let d : Device :=
       ⟨1, "AA", "lab", "online", 0, none,
         [⟨1, "fan", 26, none, true, 0, false, none, false, "maintained", true⟩], [],
         false, none, none⟩
     let m : SwitchResultMsg := ⟨26, false, true, some false, some "manual_override", some 9⟩
     let r := handleSwitchResult conn (some d) m 400
     (m.success = false → m.reason = some "stale_seq" →
       r.2.1 = some d ∧
       r.2.2 = [Event.switchResultEvt m.gpio m.requestedState m.actualState false
         (some "stale_seq") m.seq]) ∧
     (∀ rsn, m.success = false → m.reason = some rsn → rsn ≠ "stale_seq" →
       ∃ d1, r.2.1 = some d1 ∧
         Event.deviceToggleBlocked m.gpio rsn m.requestedState m.actualState m.seq ∈ r.2.2 ∧
         (∀ a, m.actualState = some a → (findPinState m.gpio d.switches).isSome →
           findPinState m.gpio d1.switches = some a)) ∧
     (m.success = true →
       ∃ d1, r.2.1 = some d1 ∧
         (∀ a, m.actualState = some a → (findPinState m.gpio d.switches).isSome →
           findPinState m.gpio d1.switches = some a))) := by
  refine ⟨by decide, ?_⟩
  exact switch_result_disposition
    ⟨some "AA", none, 0, 2, []⟩
    ⟨1, "AA", "lab", "online", 0, none,
      [⟨1, "fan", 26, none, true, 0, false, none, false, "maintained", true⟩], [],
      false, none, none⟩
    ⟨26, false, true, some false, some "manual_override", some 9⟩
    400 9 rfl (by decide)

end Server
end IoT

namespace IoT
namespace Server

/-- One merge step permutes no pins. -/
theorem mergeStep_pins (now : Nat) (valid : List Nat) (acc : List Switch × Bool)
    (e : SwIn) : ((mergeStep now valid acc e).1).map devicePin = acc.1.map devicePin := by
  unfold mergeStep
  cases hg : effGpio e with
  | none => rfl
  | some g =>
    simp only
    by_cases hv : g ∈ valid
    · rw [if_pos hv]
      exact updateFirst_pins now g e.state acc.1
    · rw [if_neg hv]

/-- The whole merge loop permutes no pins. -/
theorem mergeFold_pins (now : Nat) (valid : List Nat) (entries : List SwIn)
    (acc : List Switch × Bool) :
    ((mergeFold now valid entries acc).1).map devicePin = acc.1.map devicePin := by
  induction entries generalizing acc with
  | nil => rfl
  | cons e rest ih =>
    have h1 : mergeFold now valid (e :: rest) acc =
        mergeFold now valid rest (mergeStep now valid acc e) := rfl
    rw [h1, ih (mergeStep now valid acc e), mergeStep_pins]

/-- A merge step for an entry aimed at a different pin leaves the stored
state at `g` alone. -/
theorem mergeStep_preserves_other (now : Nat) (valid : List Nat)
    (acc : List Switch × Bool) (e : SwIn) (g : Nat)
    (hno : ∀ g2, effGpio e = some g2 → g2 ≠ g) :
    findPinState g (mergeStep now valid acc e).1 = findPinState g acc.1 := by
  unfold mergeStep
  cases hg : effGpio e with
  | none => rfl
  | some g2 =>
    simp only
    by_cases hv : g2 ∈ valid
    · rw [if_pos hv]
      exact findPinState_updateFirst_other now g g2 e.state acc.1 (Ne.symm (hno g2 hg))
    · rw [if_neg hv]

/-- A merge over entries none of which aims at pin `g` leaves the stored
state at `g` alone. -/
theorem mergeFold_preserves_other (now : Nat) (valid : List Nat) (entries : List SwIn)
    (acc : List Switch × Bool) (g : Nat)
    (hno : ∀ e ∈ entries, ∀ g2, effGpio e = some g2 → g2 ≠ g) :
    findPinState g (mergeFold now valid entries acc).1 = findPinState g acc.1 := by
  induction entries generalizing acc with
  | nil => rfl
  | cons e rest ih =>
    have h1 : mergeFold now valid (e :: rest) acc =
        mergeFold now valid rest (mergeStep now valid acc e) := rfl
    rw [h1,
      ih (mergeStep now valid acc e) (fun e2 he2 => hno e2 (List.mem_cons_of_mem e he2)),
      mergeStep_preserves_other now valid acc e g (hno e (List.mem_cons_self e rest))]

/-- After a merge with pairwise distinct effective gpios, the stored
state at each addressed valid pin equals the entry's reported state. -/
theorem mergeFold_establishes (now : Nat) (valid : List Nat) (entries : List SwIn)
    (acc : List Switch × Bool) (hnd : (entries.filterMap effGpio).Nodup)
    (hpins : acc.1.map devicePin = valid) :
    ∀ e ∈ entries, ∀ g, effGpio e = some g → g ∈ valid →
      findPinState g (mergeFold now valid entries acc).1 = some e.state := by
  induction entries generalizing acc with
  | nil =>
    intro e he
    simp at he
  | cons e0 rest ih =>
    intro e he g hg hv
    have hpins1 : (mergeStep now valid acc e0).1.map devicePin = valid := by
      rw [mergeStep_pins]
      exact hpins
    have hfold : mergeFold now valid (e0 :: rest) acc =
        mergeFold now valid rest (mergeStep now valid acc e0) := rfl
    rcases List.mem_cons.mp he with he0 | hrest
    · subst he0
      have hfm : (e :: rest).filterMap effGpio = g :: rest.filterMap effGpio := by
        simp [List.filterMap_cons, hg]
      rw [hfm] at hnd
      have hnotin : ∀ e2 ∈ rest, ∀ g2, effGpio e2 = some g2 → g2 ≠ g := by
        intro e2 he2 g2 hg2 heq
        subst heq
        exact (List.nodup_cons.mp hnd).1 (List.mem_filterMap.mpr ⟨e2, he2, hg2⟩)
      rw [hfold, mergeFold_preserves_other now valid rest (mergeStep now valid acc e) g hnotin]
      unfold mergeStep
      rw [hg]
      simp only
      rw [if_pos hv]
      exact findPinState_updateFirst_self now g e.state acc.1
        (findPinState_isSome_of_mem g acc.1 (by rw [hpins]; exact hv))
    · rw [hfold]
      have hnd1 : (rest.filterMap effGpio).Nodup := by
        cases hge : effGpio e0 with
        | none => simpa [List.filterMap_cons, hge] using hnd
        | some gg =>
          rw [show (e0 :: rest).filterMap effGpio = gg :: rest.filterMap effGpio from by
            simp [List.filterMap_cons, hge]] at hnd
          exact (List.nodup_cons.mp hnd).2
      exact ih (mergeStep now valid acc e0) hnd1 hpins1 e hrest g hg hv

/-- A merge whose every addressed valid pin already stores the reported
state is the identity and reports no change. -/
theorem mergeFold_stable (now : Nat) (valid : List Nat) (entries : List SwIn)
    (l : List Switch)
    (hand : ∀ e ∈ entries, ∀ g, effGpio e = some g → g ∈ valid →
      findPinState g l = some e.state) :
    mergeFold now valid entries (l, false) = (l, false) := by
  induction entries with
  | nil => rfl
  | cons e rest ih =>
    have hstep : mergeStep now valid (l, false) e = (l, false) := by
      unfold mergeStep
      cases hg : effGpio e with
      | none => rfl
      | some g =>
        simp only
        by_cases hv : g ∈ valid
        · rw [if_pos hv]
          rw [updateFirst_stable now g e.state l (hand e (List.mem_cons_self e rest) g hg hv)]
          rfl
        · rw [if_neg hv]
    have hfold : mergeFold now valid (e :: rest) (l, false) =
        mergeFold now valid rest (mergeStep now valid (l, false) e) := rfl
    rw [hfold, hstep]
    exact ih (fun e2 he2 => hand e2 (List.mem_cons_of_mem e he2))

/-- When a second merge of the same payload makes no change the
`stateUpdateBody` only refreshes the PIR/`lastSeen` fields and
acknowledges `changed = false`. -/
theorem stateUpdateBody_stable (d1 : Device) (p : StateUpdateMsg) (now2 : Nat)
    (hstable : mergeFold now2 (d1.switches.map devicePin) p.switches (d1.switches, false) =
      (d1.switches, false)) :
    stateUpdateBody d1 p now2 =
      ({ d1 with
          switches := d1.switches
          pirSensorLastTriggered :=
            if p.pir ∧ d1.pirEnabled then some now2 else d1.pirSensorLastTriggered
          lastSeen := now2 },
       [Event.deviceStateChanged
          { d1 with
            switches := d1.switches
            pirSensorLastTriggered :=
              if p.pir ∧ d1.pirEnabled then some now2 else d1.pirSensorLastTriggered
            lastSeen := now2 } "esp32:state_update" none,
        Event.stateAck now2 false]) := by
  simp only [stateUpdateBody]
  rw [hstable]

end Server
end IoT

namespace IoT
namespace Server

/-- C9 (amended): applying the same accepted `state_update` payload twice
in succession is a no-op the second time, provided the payload addresses
pairwise distinct effective gpios (as firmware-generated payloads do):
after the second application the switch list — states and
last-state-change timestamps — is exactly the one after the first
application, and the second acknowledgement reports `changed = false`. -/
theorem state_update_idempotent_distinct_gpios
    (conn : Conn) (d : Device) (p : StateUpdateMsg) (now1 now2 s : Nat)
    (hseq : p.seq = some s) (hacc : conn.lastInSeq ≤ s)
    (hnd : (p.switches.filterMap effGpio).Nodup) :
    (let r1 := handleStateUpdate conn (some d) p now1
     let r2 := handleStateUpdate r1.1 r1.2.1 p now2
     ∃ d1 d2, r1.2.1 = some d1 ∧ r2.2.1 = some d2 ∧
       d2.switches = d1.switches ∧
       r2.2.2 = [Event.deviceStateChanged d2 "esp32:state_update" none,
                 Event.stateAck now2 false]) := by
  have hb1 : handleStateUpdate conn (some d) p now1 =
      ({ conn with stateRL := rlUpdate now1 conn.stateRL, lastInSeq := s },
        some (stateUpdateBody d p now1).1, (stateUpdateBody d p now1).2) := by
    unfold handleStateUpdate
    rw [hseq]
    simp only
    rw [if_neg (Nat.not_lt.mpr hacc)]
  have hv2 : (stateUpdateBody d p now1).1.switches.map devicePin =
      d.switches.map devicePin := by
    show ((mergeFold now1 (d.switches.map devicePin) p.switches
      (d.switches, false)).1).map devicePin = _
    exact mergeFold_pins now1 (d.switches.map devicePin) p.switches (d.switches, false)
  have hand : ∀ e ∈ p.switches, ∀ g, effGpio e = some g →
      g ∈ d.switches.map devicePin →
      findPinState g (stateUpdateBody d p now1).1.switches = some e.state := by
    intro e he g hg hv
    exact mergeFold_establishes now1 (d.switches.map devicePin) p.switches
      (d.switches, false) hnd rfl e he g hg hv
  have hstable : mergeFold now2
      ((stateUpdateBody d p now1).1.switches.map devicePin) p.switches
      ((stateUpdateBody d p now1).1.switches, false) =
      ((stateUpdateBody d p now1).1.switches, false) := by
    rw [hv2]
    exact mergeFold_stable now2 (d.switches.map devicePin) p.switches
      (stateUpdateBody d p now1).1.switches hand
  have hb2body := stateUpdateBody_stable (stateUpdateBody d p now1).1 p now2 hstable
  have hb2 : handleStateUpdate
      ({ conn with stateRL := rlUpdate now1 conn.stateRL, lastInSeq := s })
      (some (stateUpdateBody d p now1).1) p now2 =
      ({ conn with stateRL := rlUpdate now2 (rlUpdate now1 conn.stateRL), lastInSeq := s },
        some (stateUpdateBody (stateUpdateBody d p now1).1 p now2).1,
        (stateUpdateBody (stateUpdateBody d p now1).1 p now2).2) := by
    unfold handleStateUpdate
    rw [hseq]
    simp only
    rw [if_neg (Nat.lt_irrefl s)]
  simp only [hb1, hb2]
  refine ⟨(stateUpdateBody d p now1).1,
    (stateUpdateBody (stateUpdateBody d p now1).1 p now2).1, rfl, rfl, ?_, ?_⟩
  · rw [hb2body]
  · rw [hb2body]

/-- C9 counterexample: a payload listing pin 4 twice with conflicting
states is re-applied on its second delivery: the last-state-change
timestamp moves from 100 (first application) to 200 (second), and the
second acknowledgement reports `changed = true` — so the second
application is not a no-op as the claim states. -/
theorem state_update_second_application_mutates :
    (let d : Device :=
       ⟨1, "AA", "lab", "online", 0, none,
         [⟨1, "fan", 4, none, false, 0, false, none, false, "maintained", true⟩], [],
         false, none, none⟩
     let p : StateUpdateMsg :=
       ⟨some 7, [⟨some 4, none, true⟩, ⟨some 4, none, false⟩], false⟩
     let r1 := handleStateUpdate ⟨some "AA", none, 0, 0, []⟩ (some d) p 100
     let r2 := handleStateUpdate r1.1 r1.2.1 p 200
     Option.map (fun dd => dd.switches.map (fun sw => sw.lastStateChange)) r1.2.1 =
       some [100] ∧
     Option.map (fun dd => dd.switches.map (fun sw => sw.lastStateChange)) r2.2.1 =
       some [200] ∧
     Event.stateAck 200 true ∈ r2.2.2) := by
  decide

/-- Witness for the amended C9 at a concrete device and a two-pin
payload with distinct gpios. -/
theorem state_update_idempotent_distinct_gpios_witness :
    ((⟨some "AA", none, 0, 0, []⟩ : Conn).lastInSeq ≤ 7) ∧
    (([⟨some 4, none, true⟩, ⟨some 5, none, false⟩] :
        List SwIn).filterMap effGpio).Nodup ∧
    (let conn : Conn := ⟨some "AA", none, 0, 0, []⟩
     let d : Device :=
       ⟨1, "AA", "lab", "online", 0, none,
         [⟨1, "fan", 4, none, false, 0, false, none, false, "maintained", true⟩,
          ⟨2, "light", 5, none, true, 0, false, none, false, "maintained", true⟩], [],
         false, none, none⟩
     let p : StateUpdateMsg :=
       ⟨some 7, [⟨some 4, none, true⟩, ⟨some 5, none, false⟩], false⟩
     let r1 := handleStateUpdate conn (some d) p 100
     let r2 := handleStateUpdate r1.1 r1.2.1 p 200
     ∃ d1 d2, r1.2.1 = some d1 ∧ r2.2.1 = some d2 ∧
       d2.switches = d1.switches ∧
       r2.2.2 = [Event.deviceStateChanged d2 "esp32:state_update" none,
                 Event.stateAck 200 false]) := by
  refine ⟨by decide, by decide, ?_⟩
  exact state_update_idempotent_distinct_gpios
    ⟨some "AA", none, 0, 0, []⟩
    ⟨1, "AA", "lab", "online", 0, none,
      [⟨1, "fan", 4, none, false, 0, false, none, false, "maintained", true⟩,
       ⟨2, "light", 5, none, true, 0, false, none, false, "maintained", true⟩], [],
      false, none, none⟩
    ⟨some 7, [⟨some 4, none, true⟩, ⟨some 5, none, false⟩], false⟩
    100 200 7 rfl (by decide) (by decide)

end Server
end IoT

namespace IoT
namespace Server

/-- C4: on the reconnection flush, the queued-intent list is cleared
unconditionally, and a `switch_command` for a queued intent is
(re-)sent if and only if the freshly fetched stored switch at the
intent's pin exists and its state still disagrees with the intent's
desired state. -/
theorem flush_sends_iff_disagrees (mac : String) (f : Device) :
    (∃ f1, (flushQueuedIntents mac (some f)).1 = some f1 ∧ f1.queuedIntents = []) ∧
    (∀ intent ∈ f.queuedIntents,
      (ServerMsg.switchCommand mac intent.switchGpio intent.desiredState ∈
          (flushQueuedIntents mac (some f)).2 ↔
        ∃ sw, f.switches.find? (fun s => flushPin s == intent.switchGpio) = some sw ∧
          sw.state ≠ intent.desiredState)) := by
  constructor
  · exact ⟨_, rfl, rfl⟩
  · intro intent hmem
    constructor
    · intro hin
      unfold flushQueuedIntents at hin
      simp only [List.mem_map, List.mem_filter] at hin
      obtain ⟨j, ⟨hjmem, hjpred⟩, hjeq⟩ := hin
      injection hjeq with hmac2 hgpio hstate
      rcases hfind : f.switches.find? (fun s => flushPin s == j.switchGpio) with _ | sw
      · rw [hfind] at hjpred
        simp at hjpred
      · rw [hfind] at hjpred
        simp at hjpred
        refine ⟨sw, ?_, ?_⟩
        · rw [← hgpio]
          exact hfind
        · rw [← hstate]
          exact hjpred
    · rintro ⟨sw, hfind, hne⟩
      unfold flushQueuedIntents
      simp only [List.mem_map, List.mem_filter]
      refine ⟨intent, ⟨hmem, ?_⟩, rfl⟩
      rw [hfind]
      simp [hne]

/-- Witness for C4: one stale intent (pin 4, desired on, stored off:
sent) and one already-satisfied intent (pin 5, desired off, stored off:
skipped); the queue ends empty. -/
theorem flush_sends_iff_disagrees_witness :
    ((⟨4, true⟩ : QueuedIntent) ∈
      ([⟨4, true⟩, ⟨5, false⟩] : List QueuedIntent)) ∧
    (let f : Device :=
       ⟨1, "AA", "lab", "online", 0, none,
         [⟨1, "fan", 4, none, false, 0, false, none, false, "maintained", true⟩,
          ⟨2, "light", 5, none, false, 0, false, none, false, "maintained", true⟩],
         [⟨4, true⟩, ⟨5, false⟩], false, none, none⟩
     (∃ f1, (flushQueuedIntents "AA" (some f)).1 = some f1 ∧ f1.queuedIntents = []) ∧
     (ServerMsg.switchCommand "AA" 4 true ∈ (flushQueuedIntents "AA" (some f)).2 ↔
       ∃ sw, f.switches.find? (fun s => flushPin s == 4) = some sw ∧ sw.state ≠ true)) := by
  refine ⟨by decide, ?_, ?_⟩
  · exact (flush_sends_iff_disagrees "AA"
      ⟨1, "AA", "lab", "online", 0, none,
        [⟨1, "fan", 4, none, false, 0, false, none, false, "maintained", true⟩,
         ⟨2, "light", 5, none, false, 0, false, none, false, "maintained", true⟩],
        [⟨4, true⟩, ⟨5, false⟩], false, none, none⟩).1
  · exact (flush_sends_iff_disagrees "AA"
      ⟨1, "AA", "lab", "online", 0, none,
        [⟨1, "fan", 4, none, false, 0, false, none, false, "maintained", true⟩,
         ⟨2, "light", 5, none, false, 0, false, none, false, "maintained", true⟩],
        [⟨4, true⟩, ⟨5, false⟩], false, none, none⟩).2
      ⟨4, true⟩ (by decide)

end Server

namespace Firmware

/-- C7: a `switch_command` carrying a sequence number (`seq >= 0`)
strictly older than the last sequence applied for its gpio is rejected
with a `switch_result{success:false, reason:stale_seq}`: the firmware
state — stored switch states and the sequence table — is unchanged, and
no hardware write or state report is produced.  In particular a delayed
duplicate can never reset a switch to a prior state. -/
theorem stale_command_rejected (st : FwState) (gpio : Int) (requested : Bool)
    (seq last : Int) (hseq : 0 ≤ seq) (hlast : getLastSeq st.lastSeqs gpio = last)
    (h0 : 0 ≤ last) (hlt : seq < last) :
    onSwitchCommand st gpio requested seq =
      (st, [FwOut.switchResult gpio requested false (some "stale_seq")
        (some seq) none]) := by
  unfold onSwitchCommand
  rw [if_pos hseq]
  simp only
  rw [hlast]
  rw [if_pos ⟨h0, hlt⟩]

/-- Witness for C7, the spec scenario: `switch_command{gpio:26,
state:true, seq:5}` applies and records sequence 5; the delayed
duplicate `{gpio:26, state:false, seq:3}` is rejected with `stale_seq`
and the stored state stays on. -/
theorem stale_command_rejected_witness :
    (0 ≤ (3 : Int)) ∧
    getLastSeq [((26 : Int), (5 : Int))] 26 = 5 ∧
    (0 ≤ (5 : Int)) ∧ ((3 : Int) < 5) ∧
    (onSwitchCommand ⟨[⟨26, false⟩], []⟩ 26 true 5 =
      (⟨[⟨26, true⟩], [(26, 5)]⟩,
       [FwOut.hwWrite 26 true, FwOut.stateUpdate [(26, true)],
        FwOut.switchResult 26 true true none (some 5) (some true)])) ∧
    (onSwitchCommand ⟨[⟨26, true⟩], [(26, 5)]⟩ 26 false 3 =
      (⟨[⟨26, true⟩], [(26, 5)]⟩,
       [FwOut.switchResult 26 false false (some "stale_seq") (some 3) none])) := by
  refine ⟨by decide, by decide, by decide, by decide, by decide, ?_⟩
  exact stale_command_rejected ⟨[⟨26, true⟩], [(26, 5)]⟩ 26 false 3 5
    (by decide) (by decide) (by decide) (by decide)

end Firmware
end IoT

namespace IoT
namespace ScheduleService

/-- C5 counterexample: a switch flagged `dontAutoOff` on a device with
an active motion sensor and a recent motion event IS turned off by a
motion-respecting "off" schedule, and no SecurityAlert is created: the
skip branch requires the flag to be clear, so the flagged switch falls
through to the normal write.  This refutes the claim, which omits the
flag condition. -/
theorem schedule_motion_flagged_switch_turned_off :
    (let d : Device :=
       ⟨1, "AA", "lab", "online", 0, none,
         [⟨1, "heater", 26, none, true, 0, true, none, false, "maintained", true⟩], [],
         true, none, some ⟨true⟩⟩
     let sched : Schedule := ⟨1, "night off", "off", true, 0⟩
     let r := toggleScheduledSwitch (some d) 1 sched true
     r.1 = some
       ⟨1, "AA", "lab", "online", 0, none,
         [⟨1, "heater", 26, none, false, 0, true, none, false, "maintained", true⟩], [],
         true, none, some ⟨true⟩⟩ ∧
     r.2.1 = [Event.activityLog "off" "schedule"]) := by
  decide

/-- C5 (amended): when the motion-skip preconditions hold AND the switch
is not flagged `dontAutoOff`, a motion-respecting "off" firing never
turns the switch off — nothing is saved — and it creates exactly one
medium-severity `motion_override` SecurityAlert and arms no timer. -/
theorem schedule_motion_skip (dev : Device) (switchId : Nat) (sched : Schedule)
    (sw : Switch) (p : PirSensor)
    (hfind : dev.switches.find? (fun s => s.id == switchId) = some sw)
    (hrm : sched.respectMotion = true) (hact : sched.action = "off")
    (hpir : dev.pirSensor = some p) (hpa : p.isActive = true)
    (hdaof : sw.dontAutoOff = false) :
    toggleScheduledSwitch (some dev) switchId sched true =
      (none,
       [Event.securityAlert "motion_override" "medium"
         ("Schedule tried to turn off " ++ sw.name ++
          " but motion detected. Manual override required.")],
       false) := by
  simp only [toggleScheduledSwitch, hfind, hpir]
  rw [if_pos (by simp [hrm, hact, hpa, hdaof])]

/-- Witness for the amended C5 at a concrete device with an active PIR
and an unflagged switch that is on. -/
theorem schedule_motion_skip_witness :
    (([⟨1, "fan", 26, none, true, 0, false, none, false, "maintained", true⟩] :
        List Switch).find? (fun s => s.id == 1) =
      some ⟨1, "fan", 26, none, true, 0, false, none, false, "maintained", true⟩) ∧
    toggleScheduledSwitch
      (some ⟨1, "AA", "lab", "online", 0, none,
        [⟨1, "fan", 26, none, true, 0, false, none, false, "maintained", true⟩], [],
        true, none, some ⟨true⟩⟩) 1 ⟨1, "night off", "off", true, 0⟩ true =
      (none,
       [Event.securityAlert "motion_override" "medium"
         ("Schedule tried to turn off " ++ "fan" ++
          " but motion detected. Manual override required.")],
       false) := by
  refine ⟨by decide, ?_⟩
  exact schedule_motion_skip
    ⟨1, "AA", "lab", "online", 0, none,
      [⟨1, "fan", 26, none, true, 0, false, none, false, "maintained", true⟩], [],
      true, none, some ⟨true⟩⟩
    1 ⟨1, "night off", "off", true, 0⟩
    ⟨1, "fan", 26, none, true, 0, false, none, false, "maintained", true⟩
    ⟨true⟩ (by decide) rfl rfl rfl rfl rfl

/-- C6 counterexample: the auto-off timer body returns before the
`dontAutoOff` check when the switch is already off, so a flagged switch
that is off at firing time produces NO SecurityAlert — the claim's
"a high-severity SecurityAlert is raised instead" fails there (the
stored state is indeed unchanged). -/
theorem autooff_flagged_already_off_no_alert :
    autoOffSwitch
      (some ⟨1, "AA", "lab", "online", 0, none,
        [⟨1, "projector", 26, none, false, 0, true, none, false, "maintained", true⟩], [],
        false, none, none⟩) 1 480 = (none, []) := by
  decide

/-- C6 (amended): the timeout watchdog never turns off a switch flagged
`dontAutoOff` — nothing is saved — and raises the high-severity timeout
SecurityAlert exactly when the switch is still on (an already-off
flagged switch is left untouched with no alert); a switch not so
flagged that is still on is turned off, saved, and an activity entry is
logged. -/
theorem autooff_disposition (dev : Device) (switchId timeoutMinutes : Nat)
    (sw : Switch)
    (hfind : dev.switches.find? (fun s => s.id == switchId) = some sw) :
    (sw.dontAutoOff = true →
      (autoOffSwitch (some dev) switchId timeoutMinutes).1 = none ∧
      (sw.state = true →
        (autoOffSwitch (some dev) switchId timeoutMinutes).2 =
          [Event.securityAlert "timeout" "high"
            (sw.name ++ " has been running for " ++ toString timeoutMinutes ++
             " minutes and needs manual attention.")]) ∧
      (sw.state = false →
        (autoOffSwitch (some dev) switchId timeoutMinutes).2 = [])) ∧
    (sw.dontAutoOff = false → sw.state = true →
      autoOffSwitch (some dev) switchId timeoutMinutes =
        (some { dev with
            switches := DeviceController.setStateFirstById switchId false dev.switches },
         [Event.activityLog "off" "system"])) := by
  constructor
  · intro hflag
    refine ⟨?_, ?_, ?_⟩
    · simp only [autoOffSwitch, hfind]
      by_cases hstate : sw.state = true
      · rw [if_neg (by simp [hstate]), if_pos hflag]
      · rw [if_pos (by simp [Bool.eq_false_iff.mpr hstate])]
    · intro hstate
      simp only [autoOffSwitch, hfind]
      rw [if_neg (by simp [hstate]), if_pos hflag]
    · intro hstate
      simp only [autoOffSwitch, hfind]
      rw [if_pos (by simp [hstate])]
  · intro hflag hstate
    simp only [autoOffSwitch, hfind]
    rw [if_neg (by simp [hstate]), if_neg (by simp [hflag])]

/-- Witness for the amended C6: a flagged switch still on yields only
the alert; an unflagged one still on is turned off with an activity
entry. -/
theorem autooff_disposition_witness :
    (([⟨1, "projector", 26, none, true, 0, true, none, false, "maintained", true⟩] :
        List Switch).find? (fun s => s.id == 1) =
      some ⟨1, "projector", 26, none, true, 0, true, none, false, "maintained", true⟩) ∧
    ((autoOffSwitch
        (some ⟨1, "AA", "lab", "online", 0, none,
          [⟨1, "projector", 26, none, true, 0, true, none, false, "maintained", true⟩], [],
          false, none, none⟩) 1 480).1 = none ∧
      ((true : Bool) = true →
        (autoOffSwitch
          (some ⟨1, "AA", "lab", "online", 0, none,
            [⟨1, "projector", 26, none, true, 0, true, none, false, "maintained", true⟩], [],
            false, none, none⟩) 1 480).2 =
          [Event.securityAlert "timeout" "high"
            ("projector" ++ " has been running for " ++ toString 480 ++
             " minutes and needs manual attention.")]) ∧
      ((true : Bool) = false →
        (autoOffSwitch
          (some ⟨1, "AA", "lab", "online", 0, none,
            [⟨1, "projector", 26, none, true, 0, true, none, false, "maintained", true⟩], [],
            false, none, none⟩) 1 480).2 = [])) := by
  refine ⟨by decide, ?_⟩
  exact (autooff_disposition
    ⟨1, "AA", "lab", "online", 0, none,
      [⟨1, "projector", 26, none, true, 0, true, none, false, "maintained", true⟩], [],
      false, none, none⟩ 1 480
    ⟨1, "projector", 26, none, true, 0, true, none, false, "maintained", true⟩
    (by decide)).1 rfl

end ScheduleService
end IoT

namespace IoT
namespace DeviceController

/-- C3 counterexample: the backend controller answers a toggle for an
offline device with a 409 error response and persists nothing — in
particular no Queued Intent is appended to the device — contradicting
the claim that the operation returns a "queued" outcome and writes
exactly one persisted Queued Intent. -/
theorem toggle_offline_rejected_no_persisted_intent :
    (let r := toggleSwitch
      (some ⟨1, "AA", "lab", "offline", 0, none,
        [⟨1, "fan", 26, none, false, 0, false, none, false, "maintained", true⟩], [],
        false, none, none⟩) 1 none false
     r.status = 409 ∧ r.device = none ∧
     r.events = [Event.toggleBlockedOffline 1 none]) := by
  decide

/-- C3 (amended): toggling a switch of a device whose status is not
`online` never creates a persisted Queued Intent.  The backend
controller rejects with a 409 response, emits a
`device_toggle_blocked{reason:offline}` event and writes nothing; the
frontend hook instead records exactly one in-memory queued intent for
that device+switch (replacing any previous one, latest wins) and
signals the caller by throwing the controlled
`Device is offline. Toggle queued.` error. -/
theorem toggle_offline_disposition
    (dev : Device) (switchId : Nat) (state : Option Bool) (wsOpen : Bool)
    (hoff : dev.status ≠ "" ∧ dev.status ≠ "online")
    (st : UseDevices.FrontState) (deviceId swId : String) (now : Nat)
    (d : UseDevices.FDevice)
    (hkey : (deviceId ++ ":" ++ swId) ∉ st.inFlight)
    (hcool : (match UseDevices.lookupTs st.timestamps (deviceId ++ ":" ++ swId) with
              | some t => decide (now - t < 400)
              | none => false) = false)
    (hfind : st.devices.find? (fun dd => dd.id == deviceId) = some d)
    (hoff2 : d.status ≠ "online") :
    ((toggleSwitch (some dev) switchId state wsOpen).status = 409 ∧
     (toggleSwitch (some dev) switchId state wsOpen).device = none ∧
     (toggleSwitch (some dev) switchId state wsOpen).events =
       [Event.toggleBlockedOffline switchId state]) ∧
    ((UseDevices.toggleSwitch st deviceId swId now).1 =
       UseDevices.FrontOutcome.threwOfflineQueued ∧
     ((UseDevices.toggleSwitch st deviceId swId now).2.toggleQueue.filter
        (fun t => decide (t.deviceId = deviceId ∧ t.switchId = swId))).length = 1) := by
  constructor
  · simp only [toggleSwitch]
    rw [if_pos hoff]
    exact ⟨rfl, rfl, rfl⟩
  · have hfe : UseDevices.toggleSwitch st deviceId swId now =
        (UseDevices.FrontOutcome.threwOfflineQueued,
         { st with
            timestamps := (deviceId ++ ":" ++ swId, now) ::
              st.timestamps.filter (fun q => q.1 ≠ (deviceId ++ ":" ++ swId))
            inFlight := (deviceId ++ ":" ++ swId) :: st.inFlight
            toggleQueue :=
              (st.toggleQueue.filter
                (fun t => ¬ (t.deviceId = deviceId ∧ t.switchId = swId))) ++
              [⟨deviceId, swId, none, now⟩] }) := by
      simp only [UseDevices.toggleSwitch]
      rw [if_neg hkey]
      rw [hcool]
      rw [if_neg (by simp)]
      rw [hfind]
      simp only
      rw [if_pos hoff2]
    rw [hfe]
    refine ⟨rfl, ?_⟩
    simp only
    rw [List.filter_append, List.length_append]
    have h1 : (st.toggleQueue.filter
        (fun t => ¬ (t.deviceId = deviceId ∧ t.switchId = swId))).filter
        (fun t => decide (t.deviceId = deviceId ∧ t.switchId = swId)) = [] := by
      rw [List.filter_filter]
      apply List.filter_eq_nil_iff.mpr
      intro a ha
      by_cases h2 : a.deviceId = deviceId ∧ a.switchId = swId
      · simp [h2]
      · simp [h2]
    rw [h1]
    simp

/-- Witness for the amended C3: an offline device on both paths; the
hook state starts with an empty queue and records exactly one intent. -/
theorem toggle_offline_disposition_witness :
    ((("dev1:sw1" : String) ∉ ([] : List String)) ∧
     (([⟨"dev1", "offline"⟩] : List UseDevices.FDevice).find?
        (fun dd => dd.id == "dev1") = some ⟨"dev1", "offline"⟩)) ∧
    (((toggleSwitch
        (some ⟨1, "AA", "lab", "offline", 0, none,
          [⟨1, "fan", 26, none, false, 0, false, none, false, "maintained", true⟩], [],
          false, none, none⟩) 1 none false).status = 409 ∧
      (toggleSwitch
        (some ⟨1, "AA", "lab", "offline", 0, none,
          [⟨1, "fan", 26, none, false, 0, false, none, false, "maintained", true⟩], [],
          false, none, none⟩) 1 none false).device = none ∧
      (toggleSwitch
        (some ⟨1, "AA", "lab", "offline", 0, none,
          [⟨1, "fan", 26, none, false, 0, false, none, false, "maintained", true⟩], [],
          false, none, none⟩) 1 none false).events =
        [Event.toggleBlockedOffline 1 none]) ∧
     ((UseDevices.toggleSwitch ⟨[⟨"dev1", "offline"⟩], [], [], []⟩ "dev1" "sw1" 900).1 =
        UseDevices.FrontOutcome.threwOfflineQueued ∧
      ((UseDevices.toggleSwitch ⟨[⟨"dev1", "offline"⟩], [], [], []⟩ "dev1" "sw1" 900).2.toggleQueue.filter
         (fun t => decide (t.deviceId = "dev1" ∧ t.switchId = "sw1"))).length = 1)) := by
  refine ⟨⟨by decide, by decide⟩, ?_⟩
  exact toggle_offline_disposition
    ⟨1, "AA", "lab", "offline", 0, none,
      [⟨1, "fan", 26, none, false, 0, false, none, false, "maintained", true⟩], [],
      false, none, none⟩ 1 none false (by decide)
    ⟨[⟨"dev1", "offline"⟩], [], [], []⟩ "dev1" "sw1" 900
    ⟨"dev1", "offline"⟩ (by decide) (by decide) (by decide) (by decide)

end DeviceController
end IoT

namespace IoT
namespace Server

/-- C8 counterexample: an `identify` for an unregistered hardware
address is answered with the `device_not_registered` error but the
socket is NOT closed — the handler only sends the error message and
returns, leaving the connection open (and unidentified).  This refutes
the claim's "the connection is rejected and closed". -/
theorem identify_unregistered_rejected_not_closed :
    (let r := handleIdentify ⟨none, none, 0, 0, []⟩ none "AA:BB:CC:DD:EE:01" none false 5
     r.replies = [ServerMsg.errorMsg "device_not_registered"] ∧ r.closed = false) := by
  decide

/-- C8 (amended): for an `identify` with a non-empty mac — an unknown
hardware address is rejected with `device_not_registered` (the error is
sent and an `identify_error` event emitted, but the socket is left
open, not closed); a configured secret that is missing or different is
rejected with `invalid_or_missing_secret` unless the insecure-mode
override is set; otherwise the device is marked online (`lastSeen`
refreshed), the connection is recorded under the hardware address, and
the reply is an `identified` message carrying the device's current
switch configuration. -/
theorem identify_disposition (conn : Conn) (found : Option Device) (mac : String)
    (secret : Option String) (allowInsecure : Bool) (now : Nat) (hmac : mac ≠ "") :
    (found = none →
      handleIdentify conn found mac secret allowInsecure now =
        { replies := [ServerMsg.errorMsg "device_not_registered"], closed := false,
          conn := conn, device := none, wsRegistered := false,
          events := [Event.identifyError mac "device_not_registered"] }) ∧
    (∀ device, found = some device → secretMismatchB device secret = true →
      allowInsecure = false →
      handleIdentify conn found mac secret allowInsecure now =
        { replies := [ServerMsg.errorMsg "invalid_or_missing_secret"], closed := false,
          conn := conn, device := none, wsRegistered := false,
          events := [Event.identifyError mac "invalid_or_missing_secret"] }) ∧
    (∀ device, found = some device →
      (secretMismatchB device secret && ! allowInsecure) = false →
      handleIdentify conn found mac secret allowInsecure now =
        { replies := [ServerMsg.identified mac
            (if device.deviceSecret.isSome then "secure" else "insecure")
            (device.switches.map toSwitchConfig)],
          closed := false,
          conn := { conn with mac := some mac, secret := device.deviceSecret },
          device := some { device with status := "online", lastSeen := now },
          wsRegistered := true,
          events := [Event.deviceConnected mac] }) := by
  refine ⟨?_, ?_, ?_⟩
  · intro hf
    subst hf
    simp only [handleIdentify]
    rw [if_neg hmac]
  · intro device hf hmis hins
    subst hf
    simp only [handleIdentify]
    rw [if_neg hmac]
    rw [if_pos (by simp [hmis, hins])]
  · intro device hf hok
    subst hf
    simp only [handleIdentify]
    rw [if_neg hmac]
    rw [if_neg (by simp [hok])]

/-- Witness for the amended C8, the spec scenario: device
`AA:BB:CC:DD:EE:01` (no stored secret) identifies and is answered with
an `identified` message carrying its two configured switches. -/
theorem identify_disposition_witness :
    (("AA:BB:CC:DD:EE:01" : String) ≠ "") ∧
    handleIdentify ⟨none, none, 0, 0, []⟩
      (some ⟨1, "AA:BB:CC:DD:EE:01", "room", "offline", 0, none,
        [⟨1, "fan", 26, none, false, 0, false, none, false, "maintained", true⟩,
         ⟨2, "light", 27, none, true, 0, false, none, false, "maintained", true⟩], [],
        false, none, none⟩)
      "AA:BB:CC:DD:EE:01" none false 50 =
      { replies := [ServerMsg.identified "AA:BB:CC:DD:EE:01"
          (if (none : Option String).isSome then "secure" else "insecure")
          ([⟨1, "fan", 26, none, false, 0, false, none, false, "maintained", true⟩,
            ⟨2, "light", 27, none, true, 0, false, none, false, "maintained", true⟩].map
            toSwitchConfig)],
        closed := false,
        conn := { (⟨none, none, 0, 0, []⟩ : Conn) with
          mac := some "AA:BB:CC:DD:EE:01", secret := none },
        device := some ⟨1, "AA:BB:CC:DD:EE:01", "room", "online", 50, none,
          [⟨1, "fan", 26, none, false, 0, false, none, false, "maintained", true⟩,
           ⟨2, "light", 27, none, true, 0, false, none, false, "maintained", true⟩], [],
          false, none, none⟩,
        wsRegistered := true,
        events := [Event.deviceConnected "AA:BB:CC:DD:EE:01"] } := by
  refine ⟨by decide, ?_⟩
  exact (identify_disposition ⟨none, none, 0, 0, []⟩
    (some ⟨1, "AA:BB:CC:DD:EE:01", "room", "offline", 0, none,
      [⟨1, "fan", 26, none, false, 0, false, none, false, "maintained", true⟩,
       ⟨2, "light", 27, none, true, 0, false, none, false, "maintained", true⟩], [],
      false, none, none⟩)
    "AA:BB:CC:DD:EE:01" none false 50 (by decide)).2.2
    ⟨1, "AA:BB:CC:DD:EE:01", "room", "offline", 0, none,
      [⟨1, "fan", 26, none, false, 0, false, none, false, "maintained", true⟩,
       ⟨2, "light", 27, none, true, 0, false, none, false, "maintained", true⟩], [],
      false, none, none⟩ rfl (by decide)

end Server
end IoT
